import Mathlib

set_option maxHeartbeats 1000000

/-!
Verification of `archr/targets/docker_target.py` (class `DockerImageTarget`).

The Python class is shallowly embedded: pure string manipulation is translated
directly; calls into the container runtime and the host OS (external
collaborators per the design) are made explicit, either as function parameters
(`os.path.realpath`) or as an explicit `World` record threaded through the
lifecycle operations; code paths that raise Python exceptions return
`Except PyErr`.
-/

namespace Archr

/-- Kinds of Python exceptions raised on the embedded code paths. -/
inductive PyErr where
  | keyError
  | attributeError
  | valueError
  | assertionError
  | typeError
  | osError
  | indexError
  deriving DecidableEq

/-- `charsStart s p = true` iff the char list `p` is a leading run of `s`
(the char-list semantics of Python's `s.startswith(p)`). -/
def charsStart : List Char → List Char → Bool
  | _, [] => true
  | [], _ :: _ => false
  | c :: cs, d :: ds => c == d && charsStart cs ds

/-- Python `s.startswith(p)`. -/
def pyStartswith (s p : String) : Bool := charsStart s.data p.data

/-- Python `s.endswith(p)`. -/
def pyEndswith (s p : String) : Bool := charsStart s.data.reverse p.data.reverse

/-- Python `s.lstrip("/")`: drop every leading `'/'`. -/
def pyLstripSlash (s : String) : String := ⟨s.data.dropWhile (· == '/')⟩

/-- Two-argument `posixpath.join`: an absolute second component replaces the
first; otherwise the components are joined with a separator unless one is
already present. -/
def pjoin (a b : String) : String :=
  if pyStartswith b "/" then b
  else if a = "" || pyEndswith a "/" then a ++ b
  else a ++ "/" ++ b

/-- `posixpath.basename`: the chars after the last `'/'`. -/
def basename (p : String) : String := ⟨(p.data.reverse.takeWhile (· != '/')).reverse⟩

/-- `posixpath.dirname`: the chars up to and including the last `'/'`, with
trailing separators stripped unless the head consists only of separators. -/
def dirname (p : String) : String :=
  let head := (p.data.reverse.dropWhile (· != '/')).reverse
  if head.isEmpty || head.all (· == '/') then ⟨head⟩
  else ⟨(head.reverse.dropWhile (· == '/')).reverse⟩

/-- The first step of `DockerImageTarget.resolve_local_path`: if the input
does not already start with the mount root, join it (relative form) under the
mount root. -/
def joined_path (local_path path : String) : String :=
  if pyStartswith path local_path then path else pjoin local_path (pyLstripSlash path)

/-- `DockerImageTarget.resolve_local_path`. `local_path` is the value of the
`local_path` property (the mount root) and `realpath` is the external host
canonicalization `os.path.realpath`, taken as an arbitrary function so that
the containment result holds for every filesystem/symlink configuration. -/
def resolve_local_path (local_path : String) (realpath : String → String)
    (path : String) : String :=
  let rp := realpath (joined_path local_path path)
  if pyStartswith rp local_path then rp else pjoin local_path (pyLstripSlash rp)

theorem string_data_append (a b : String) : (a ++ b).data = a.data ++ b.data := rfl

theorem charsStart_nil (s : List Char) : charsStart s [] = true := by
  cases s <;> rfl

theorem charsStart_append (a b : List Char) : charsStart (a ++ b) a = true := by
  induction a with
  | nil => exact charsStart_nil b
  | cons c cs ih => simp [charsStart, ih]

theorem charsStart_refl (a : List Char) : charsStart a a = true := by
  have h := charsStart_append a []
  rwa [List.append_nil] at h

theorem pyStartswith_append (a b : String) : pyStartswith (a ++ b) a = true := by
  unfold pyStartswith
  rw [string_data_append]
  exact charsStart_append a.data b.data

theorem pyLstripSlash_no_slash (s : String) :
    pyStartswith (pyLstripSlash s) "/" = false := by
  unfold pyStartswith pyLstripSlash
  show charsStart (s.data.dropWhile (· == '/')) ['/'] = false
  induction s.data with
  | nil => rfl
  | cons c cs ih =>
    by_cases h : c == '/'
    · simpa [List.dropWhile, h] using ih
    · simp [List.dropWhile, h, charsStart]

theorem pyStartswith_pjoin (a b : String) (h : pyStartswith b "/" = false) :
    pyStartswith (pjoin a b) a = true := by
  unfold pjoin
  rw [h]
  simp only [Bool.false_eq_true, if_false]
  by_cases h2 : (a = "" || pyEndswith a "/") = true
  · rw [if_pos h2]
    exact pyStartswith_append a b
  · rw [if_neg h2]
    unfold pyStartswith
    rw [string_data_append, string_data_append]
    rw [List.append_assoc]
    exact charsStart_append a.data _

/-- Claim C1: for every mount root, every host canonicalization function and
every input path, the result of `resolve_local_path` lexically starts with the
mount root; and whenever canonicalization of the joined path escapes the mount
root, the canonical path is re-joined under the mount root rather than
returned. -/
theorem resolve_local_path_contained (local_path : String)
    (realpath : String → String) (path : String) :
    pyStartswith (resolve_local_path local_path realpath path) local_path = true
    ∧ (pyStartswith (realpath (joined_path local_path path)) local_path = false →
        resolve_local_path local_path realpath path =
          pjoin local_path (pyLstripSlash (realpath (joined_path local_path path)))) := by
  constructor
  · unfold resolve_local_path
    cases hb : pyStartswith (realpath (joined_path local_path path)) local_path with
    | false =>
      simp only [hb, Bool.false_eq_true, if_false]
      exact pyStartswith_pjoin local_path _ (pyLstripSlash_no_slash _)
    | true => simp [hb]
  · intro hesc
    unfold resolve_local_path
    simp only [hesc, Bool.false_eq_true, if_false]

/-- A concrete host canonicalization in which the joined path resolves (e.g.
through an in-container absolute symlink) to a path outside the mount root. -/
def realpathEscape : String → String := fun _ => "/etc/passwd"

theorem resolve_local_path_contained_witness :
    pyStartswith (resolve_local_path "/tmp/archr_mounts/c1" realpathEscape
        "../../etc/passwd") "/tmp/archr_mounts/c1" = true
    ∧ resolve_local_path "/tmp/archr_mounts/c1" realpathEscape "../../etc/passwd" =
        pjoin "/tmp/archr_mounts/c1" (pyLstripSlash (realpathEscape
          (joined_path "/tmp/archr_mounts/c1" "../../etc/passwd"))) :=
  ⟨(resolve_local_path_contained "/tmp/archr_mounts/c1" realpathEscape
      "../../etc/passwd").1,
   (resolve_local_path_contained "/tmp/archr_mounts/c1" realpathEscape
      "../../etc/passwd").2 (by decide)⟩

/-- The `Config` part of `self.image.attrs` consumed by `build`: entrypoint,
cmd and declared environment, each possibly `None` (absent). -/
structure ImageConfig where
  entrypoint : Option (List String)
  cmd : Option (List String)
  env : Option (List String)
  deriving DecidableEq

/-- The in-memory fields of a `DockerImageTarget`. `target_args`/`target_env`
are Python values that are either `None` or a list (`some []` is an explicitly
supplied empty list); `image` and `container` are the handles set by
`build`/`start`. The container handle is modelled by the container id. -/
structure DockerImageTarget where
  image_id : String
  target_args : Option (List String)
  target_env : Option (List String)
  target_path : Option String
  image : Option ImageConfig
  container : Option String
  deriving DecidableEq

/-- `DockerImageTarget.__init__`: stores the declared fields; `image` and
`container` start out as `None`. -/
def init (image_name : String) (target_args target_env : Option (List String))
    (target_path : Option String) : DockerImageTarget :=
  ⟨image_name, target_args, target_env, target_path, none, none⟩

/-- Python `a or b` where `a` is `None` or a list: a `None` or empty `a` is
falsy and selects `b`. -/
def pyOrL (a b : Option (List String)) : Option (List String) :=
  match a with
  | some l => if l.isEmpty then b else some l
  | none => b

deriving instance DecidableEq for Except

/-- The value `build` assigns to `target_args`: `self.target_args or
(entrypoint or []) + (cmd or [])`. -/
def defaultedArgs (t : DockerImageTarget) (img : ImageConfig) : List String :=
  match t.target_args with
  | some l => if l.isEmpty then img.entrypoint.getD [] ++ img.cmd.getD [] else l
  | none => img.entrypoint.getD [] ++ img.cmd.getD []

/-- The value `build` assigns to `target_path`: `self.target_path or
self.target_args[0]`, where indexing an empty list is `none` (IndexError). -/
def defaultedPath (t : DockerImageTarget) (img : ImageConfig) : Option String :=
  match t.target_path with
  | some p => if p = "" then (defaultedArgs t img).head? else some p
  | none => (defaultedArgs t img).head?

/-- `DockerImageTarget.build`. The image config resolved by the runtime from
`image_id` is the parameter `img`. `target_args` becomes
`(entrypoint or []) + (cmd or [])` when falsy, `target_env` becomes the image
env when falsy, and `target_path` becomes `target_args[0]` when falsy — an
`IndexError` when the resulting args list is empty. -/
def build (t : DockerImageTarget) (img : ImageConfig) :
    Except PyErr DockerImageTarget :=
  match defaultedPath t img with
  | some p =>
    .ok { t with image := some img, target_args := some (defaultedArgs t img),
                 target_env := pyOrL t.target_env img.env, target_path := some p }
  | none => .error .indexError

/-- External state owned by the runtime and the host OS: existing containers,
running containers, existing mount-root directories, active bind mounts.
Runtime calls (`kill`, `remove`) are modelled best-effort (never failing),
which only gives the code the benefit of the doubt; host `os.rmdir` keeps its
real semantics of raising `OSError` on a missing directory, while `os.system`
(mount/umount) ignores its exit status. -/
structure World where
  containers : List String
  running : List String
  dirs : List String
  mounts : List String
  deriving DecidableEq

/-- Remove every occurrence of `x` (the entity no longer exists afterwards). -/
def delAll (l : List String) (x : String) : List String :=
  l.filter (fun y => !(y == x))

/-- The `local_path` property: `"/tmp/archr_mounts/%s" % self.container.id`. -/
def mountRoot (cid : String) : String := "/tmp/archr_mounts/" ++ cid

/-- The `local_path` property as the code evaluates it: reading
`self.container.id` when `container` is `None` raises `AttributeError`. -/
def local_path (t : DockerImageTarget) : Except PyErr String :=
  match t.container with
  | none => .error .attributeError
  | some cid => .ok (mountRoot cid)

/-- `DockerImageTarget.start`: the runtime creates and runs a fresh container
(its id `cid` is chosen by the runtime), the handle is stored, the mount root
directory is created (`try: os.makedirs ... except OSError: pass`) and the
merged overlay directory is bind-mounted onto it (`os.system`, exit status
ignored). -/
def start (t : DockerImageTarget) (w : World) (cid : String) :
    DockerImageTarget × World :=
  let t2 := { t with container := some cid }
  let w2 := { w with containers := cid :: w.containers, running := cid :: w.running }
  let lp := mountRoot cid
  let w3 := if lp ∈ w2.dirs then w2 else { w2 with dirs := lp :: w2.dirs }
  ( t2, { w3 with mounts := lp :: w3.mounts } )

/-- `DockerImageTarget.stop`: `if self.container: self.container.kill()`, then
`os.system("sudo umount ...")` (result ignored) and `os.rmdir(self.local_path)`.
With `container = None` the `local_path` read raises `AttributeError`; `rmdir`
of a directory that no longer exists raises `OSError`. The in-memory target is
returned unchanged — the code never assigns `self.container`. -/
def stop (t : DockerImageTarget) (w : World) :
    Except PyErr (DockerImageTarget × World) :=
  match t.container with
  | none => .error .attributeError
  | some cid =>
    let w2 := { w with running := delAll w.running cid }
    let lp := mountRoot cid
    let w3 := { w2 with mounts := delAll w2.mounts lp }
    if lp ∈ w3.dirs then .ok (t, { w3 with dirs := delAll w3.dirs lp })
    else .error .osError

/-- `DockerImageTarget.remove`: `if self.container: self.container.remove(force=True)`.
The forced runtime removal is modelled best-effort; the in-memory target is
untouched. -/
def remove (t : DockerImageTarget) (w : World) : DockerImageTarget × World :=
  match t.container with
  | none => (t, w)
  | some cid =>
    (t, { w with containers := delAll w.containers cid,
                 running := delAll w.running cid })

theorem not_mem_delAll (l : List String) (x : String) : x ∉ delAll l x := by
  simp [delAll, List.mem_filter]

/-- An image whose entrypoint is `/bin/sh` with no cmd and no declared env. -/
def imgSh : ImageConfig := ⟨some ["/bin/sh"], none, none⟩

/-- Target supplied with explicitly empty `target_args`, `target_env` and
`target_path`. -/
def tC2all : DockerImageTarget := init "archr-test" (some []) (some []) (some "")

/-- An image with entrypoint `/bin/sh`, no cmd, and declared env `X=1`. -/
def imgC2all : ImageConfig := ⟨some ["/bin/sh"], none, some ["X=1"]⟩

/-- The result of building `tC2all` against `imgC2all`. -/
def tC2all2 : DockerImageTarget :=
  ⟨"archr-test", some ["/bin/sh"], some ["X=1"], some "/bin/sh", some imgC2all, none⟩

/-- Claim C2 counterexample: a target constructed with the explicitly supplied
values `target_args = []`, `target_env = []` and `target_path = ""` keeps none
of them across `build` — empty sequences and strings are falsy, so all three
are replaced by the image-derived defaults. -/
theorem build_overwrites_empty_args_cex :
    tC2all.target_args = some []
    ∧ tC2all.target_env = some []
    ∧ tC2all.target_path = some ""
    ∧ build tC2all imgC2all = .ok tC2all2
    ∧ some ([] : List String) ≠ some ["/bin/sh"]
    ∧ some ([] : List String) ≠ some ["X=1"]
    ∧ some "" ≠ some "/bin/sh" := by decide

/-- Claim C2 (amended): after a successful `build`, a `target_args` that was
`None` **or an explicitly supplied empty sequence** equals entrypoint ++ cmd,
a `None` or empty `target_env` equals the image's declared environment, a
`None` or empty-string `target_path` equals `target_args[0]`, and values
supplied as non-`None` **non-empty** sequences (a non-empty string for
`target_path`) are left unchanged. -/
theorem build_defaults (t : DockerImageTarget) (img : ImageConfig)
    (t2 : DockerImageTarget) (h : build t img = .ok t2) :
    (t.target_args = none →
      t2.target_args = some (img.entrypoint.getD [] ++ img.cmd.getD []))
    ∧ (t.target_args = some [] →
      t2.target_args = some (img.entrypoint.getD [] ++ img.cmd.getD []))
    ∧ (∀ l, t.target_args = some l → l ≠ [] → t2.target_args = some l)
    ∧ (t.target_env = none → t2.target_env = img.env)
    ∧ (t.target_env = some [] → t2.target_env = img.env)
    ∧ (∀ l, t.target_env = some l → l ≠ [] → t2.target_env = some l)
    ∧ (t.target_path = none → ∀ l, t2.target_args = some l →
        t2.target_path = l.head?)
    ∧ (t.target_path = some "" → ∀ l, t2.target_args = some l →
        t2.target_path = l.head?)
    ∧ (∀ p, t.target_path = some p → p ≠ "" → t2.target_path = some p) := by
  unfold build at h
  cases hdp : defaultedPath t img with
  | none => rw [hdp] at h; exact absurd h (by simp)
  | some p =>
    rw [hdp] at h
    injection h with h
    subst h
    refine ⟨?_, ?_, ?_, ?_, ?_, ?_, ?_, ?_, ?_⟩
    · intro ha
      simp [defaultedArgs, ha]
    · intro ha
      simp [defaultedArgs, ha]
    · intro l ha hl
      cases l with
      | nil => exact absurd rfl hl
      | cons x xs => simp [defaultedArgs, ha]
    · intro he
      simp [pyOrL, he]
    · intro he
      simp [pyOrL, he]
    · intro l he hl
      cases l with
      | nil => exact absurd rfl hl
      | cons x xs => simp [pyOrL, he]
    · intro hpath l hargs
      simp only at hargs
      injection hargs with hargs
      rw [← hargs]
      simp [defaultedPath, hpath] at hdp
      exact hdp.symm
    · intro hpath l hargs
      simp only at hargs
      injection hargs with hargs
      rw [← hargs]
      simp [defaultedPath, hpath] at hdp
      exact hdp.symm
    · intro q hq hqne
      simp [defaultedPath, hq, hqne] at hdp
      simp [hdp]

/-- A fully explicitly-supplied (non-empty) target. -/
def tC2w : DockerImageTarget :=
  init "archr-test" (some ["/bin/cat"]) (some ["A=1"]) (some "/bin/cat")

/-- The result of building `tC2w` against `imgSh`. -/
def tC2w2 : DockerImageTarget :=
  ⟨"archr-test", some ["/bin/cat"], some ["A=1"], some "/bin/cat", some imgSh, none⟩

theorem build_defaults_witness :
    tC2w2.target_args = some ["/bin/cat"]
    ∧ tC2w2.target_env = some ["A=1"]
    ∧ tC2w2.target_path = some "/bin/cat"
    ∧ tC2all2.target_args = some (imgC2all.entrypoint.getD [] ++ imgC2all.cmd.getD [])
    ∧ tC2all2.target_env = imgC2all.env
    ∧ tC2all2.target_path = (["/bin/sh"] : List String).head? :=
  ⟨(build_defaults tC2w imgSh tC2w2 (by decide)).2.2.1 ["/bin/cat"] rfl (by decide),
   (build_defaults tC2w imgSh tC2w2 (by decide)).2.2.2.2.2.1 ["A=1"] rfl (by decide),
   (build_defaults tC2w imgSh tC2w2 (by decide)).2.2.2.2.2.2.2.2 "/bin/cat" rfl (by decide),
   (build_defaults tC2all imgC2all tC2all2 (by decide)).2.1 rfl,
   (build_defaults tC2all imgC2all tC2all2 (by decide)).2.2.2.2.1 rfl,
   (build_defaults tC2all imgC2all tC2all2 (by decide)).2.2.2.2.2.2.2.1 rfl ["/bin/sh"] rfl⟩

/-- A freshly constructed (never started) target. -/
def tC3 : DockerImageTarget := init "archr-test" none none none

/-- An empty external world. -/
def wEmpty : World := ⟨[], [], [], []⟩

/-- Claim C3 counterexample: after `start` and a successful `stop`, the
in-memory container handle still holds the container id — neither `stop` nor
`remove` ever assigns `self.container`, so it is not cleared. -/
theorem stop_keeps_handle_cex :
    stop (start tC3 wEmpty "c1").1 (start tC3 wEmpty "c1").2 =
      .ok (⟨"archr-test", none, none, none, none, some "c1"⟩, ⟨["c1"], [], [], []⟩)
    ∧ some "c1" ≠ (none : Option String) := by decide

/-- Claim C3 (amended): `start` sets the container handle, but `stop` and
`remove` leave the in-memory target — in particular its container handle —
completely unchanged; the handle keeps the last-started container id instead
of being cleared. -/
theorem handle_never_cleared (t : DockerImageTarget) (w : World) (cid : String) :
    (start t w cid).1.container = some cid
    ∧ (remove t w).1 = t
    ∧ (∀ t2 w2, stop t w = .ok (t2, w2) → t2 = t) := by
  refine ⟨rfl, ?_, ?_⟩
  · unfold remove
    cases t.container <;> rfl
  · intro t2 w2 h
    cases hc : t.container with
    | none => simp [stop, hc] at h
    | some cid2 =>
      simp only [stop, hc] at h
      split at h
      · simp only [Except.ok.injEq, Prod.mk.injEq] at h
        exact h.1.symm
      · exact absurd h (by simp)

/-- A started target whose container is `c3`. -/
def tC3s : DockerImageTarget := ⟨"archr-test", none, none, none, none, some "c3"⟩

/-- The world right after starting `tC3s`. -/
def wC3s : World := ⟨["c3"], ["c3"], [mountRoot "c3"], [mountRoot "c3"]⟩

theorem handle_never_cleared_witness :
    (start tC3s wC3s "c9").1.container = some "c9" ∧ tC3s = tC3s :=
  ⟨(handle_never_cleared tC3s wC3s "c9").1,
   (handle_never_cleared tC3s wC3s "c9").2.2 tC3s ⟨["c3"], [], [], []⟩ (by decide)⟩

/-- A started target whose container is `c2`. -/
def tC4 : DockerImageTarget := ⟨"archr-test", none, none, none, none, some "c2"⟩

/-- The world right after starting `tC4`. -/
def wC4 : World := ⟨["c2"], ["c2"], [mountRoot "c2"], [mountRoot "c2"]⟩

/-- The world after the first successful `stop` of `tC4`. -/
def wC4b : World := ⟨["c2"], [], [], []⟩

/-- Claim C4 counterexample: the first `stop` succeeds, but calling `stop`
again on the already-stopped target raises: the mount-root directory was
removed by the first call, and the unguarded `os.rmdir` raises `OSError` on a
missing directory. -/
theorem stop_twice_raises_cex :
    stop tC4 wC4 = .ok (tC4, wC4b)
    ∧ stop tC4 wC4b = .error PyErr.osError := by decide

/-- Claim C4 (amended): `remove` on a never-started target is a no-op, and
`remove` — called any number of times — never raises (it is total even under a
best-effort runtime) and never changes the in-memory target; but `stop` is not
idempotent: after a successful `stop`, a second `stop` raises an `OSError`
from `os.rmdir`, since the mount directory no longer exists. -/
theorem remove_noop_stop_raises (t : DockerImageTarget) (w : World) :
    (t.container = none → remove t w = (t, w))
    ∧ (remove (remove t w).1 (remove t w).2).1 = t
    ∧ (∀ t2 w2, stop t w = .ok (t2, w2) → stop t2 w2 = .error PyErr.osError) := by
  refine ⟨?_, ?_, ?_⟩
  · intro hc
    simp [remove, hc]
  · have h1 : (remove t w).1 = t := by
      unfold remove
      cases t.container <;> rfl
    rw [h1]
    unfold remove
    cases t.container <;> rfl
  · intro t2 w2 h
    cases hc : t.container with
    | none => simp [stop, hc] at h
    | some cid =>
      simp only [stop, hc] at h
      split at h
      · simp only [Except.ok.injEq, Prod.mk.injEq] at h
        rw [← h.1, ← h.2]
        simp [stop, hc, not_mem_delAll]
      · exact absurd h (by simp)

/-- A started target whose container is `c4`. -/
def tC4w : DockerImageTarget := ⟨"archr-test", none, none, none, none, some "c4"⟩

/-- A world in which `tC4w`'s container exists and its mount root exists. -/
def wC4w : World := ⟨["c4"], ["c4"], [mountRoot "c4"], []⟩

/-- The world after a successful `stop` of `tC4w` from `wC4w`. -/
def wC4w2 : World := ⟨["c4"], [], [], []⟩

theorem remove_noop_stop_raises_witness :
    stop tC4w wC4w2 = .error PyErr.osError :=
  (remove_noop_stop_raises tC4w wC4w).2.2 tC4w wC4w2 (by decide)

/-- Kind of a tar archive member (the member types this code distinguishes:
`extractfile` yields a stream for a regular file and `None` otherwise). -/
inductive TarKind where
  | file
  | dir
  deriving DecidableEq

/-- One member of the tar stream returned by the runtime's `get_archive`. The
archive-codec claims are about member selection, so the stream is modelled at
the parsed level (`tarfile.open` over `retrieve_tarball_contents`): a list
of members in archive order, each with its archive path, kind and bytes. -/
structure TarMember where
  path : String
  kind : TarKind
  content : List Nat
  deriving DecidableEq

/-- `tarfile.TarFile.getmember(name)`: of the members carrying `name`, the
last occurrence is taken (tarfile treats it as the most up-to-date version);
`none` corresponds to the `KeyError` tarfile raises when absent. -/
def getmember (archive : List TarMember) (name : String) : Option TarMember :=
  (archive.filter (fun m => m.path == name)).getLast?

/-- `DockerImageTarget.retrieve_file_contents`: parse the retrieved tarball
and run `t.extractfile(os.path.basename(target_path)).read()`. A missing
member name raises `KeyError`; on a non-regular member `extractfile` returns
`None` and the `.read()` raises `AttributeError`. -/
def retrieve_file_contents (archive : List TarMember) (target_path : String) :
    Except PyErr (List Nat) :=
  match getmember archive (basename target_path) with
  | none => .error .keyError
  | some m =>
    match m.kind with
    | .file => .ok m.content
    | .dir => .error .attributeError

/-- Claim C5: `retrieve_file_contents` returns the bytes of the (last) file
entry whose archive name is the basename of `target_path`, and fails when
`target_path` does not name a regular file — with tarfile's `KeyError` when no
member carries the name, and with `AttributeError` (from `.read()` on `None`)
when the member is not a regular file; these are the exceptions the spec's
taxonomy groups as `NotFoundError`. -/
theorem retrieve_file_contents_spec (archive : List TarMember) (tp : String) :
    (∀ m, getmember archive (basename tp) = some m → m.kind = TarKind.file →
      retrieve_file_contents archive tp = .ok m.content)
    ∧ (∀ m, getmember archive (basename tp) = some m → m.kind = TarKind.dir →
      retrieve_file_contents archive tp = .error PyErr.attributeError)
    ∧ (getmember archive (basename tp) = none →
      retrieve_file_contents archive tp = .error PyErr.keyError) := by
  refine ⟨?_, ?_, ?_⟩
  · intro m hm hk
    simp [retrieve_file_contents, hm, hk]
  · intro m hm hk
    simp [retrieve_file_contents, hm, hk]
  · intro hm
    simp [retrieve_file_contents, hm]

/-- The tarball the runtime returns for `/etc/passwd`. -/
def arC5 : List TarMember := [⟨"passwd", TarKind.file, [114, 111, 111, 116]⟩]

theorem retrieve_file_contents_spec_witness :
    retrieve_file_contents arC5 "/etc/passwd" = .ok [114, 111, 111, 116] :=
  (retrieve_file_contents_spec arC5 "/etc/passwd").1
    ⟨"passwd", TarKind.file, [114, 111, 111, 116]⟩ (by decide) rfl

/-- `DockerImageTarget.retrieve_path`: parse the retrieved tarball and run
`t.extractall(os.path.join(local_path, os.path.dirname(target_path).lstrip("/")),
members=[m for m in t.getmembers() if m.path.startswith(target_path.lstrip("/"))])`.
Result: the extraction destination directory and the selected members. -/
def retrieve_path (archive : List TarMember) (target_path local_dir : String) :
    String × List TarMember :=
  (pjoin local_dir (pyLstripSlash (dirname target_path)),
   archive.filter (fun m => pyStartswith m.path (pyLstripSlash target_path)))

/-- The spec's notion for claim C6 of a member path being contained within the
target path's relative form: equal to it, or below it as a directory. -/
def underRel (p rel : String) : Bool := p == rel || pyStartswith p (rel ++ "/")

/-- A member whose archive path is NOT under `etc` but shares it as a string
prefix. -/
def mC6 : TarMember := ⟨"etcetera/passwd", TarKind.file, [55]⟩

/-- Claim C6 counterexample: for `target_path = "/etc"`, the member
`etcetera/passwd` is not contained within the target's relative path `etc`,
yet `retrieve_path` extracts it — the code filters by a raw string
`startswith`, which also admits prefix-named siblings. -/
theorem retrieve_path_overmatch_cex :
    (retrieve_path [mC6] "/etc" "/out").2 = [mC6]
    ∧ underRel mC6.path (pyLstripSlash "/etc") = false := by decide

theorem underRel_startswith (p rel : String) (h : underRel p rel = true) :
    pyStartswith p rel = true := by
  unfold underRel at h
  rw [Bool.or_eq_true] at h
  cases h with
  | inl he =>
    have : p = rel := by
      simpa using he
    rw [this]
    exact charsStart_refl rel.data
  | inr hs =>
    unfold pyStartswith at hs ⊢
    rw [string_data_append] at hs
    revert hs
    generalize p.data = s
    generalize rel.data = a
    intro hs
    induction a generalizing s with
    | nil => exact charsStart_nil s
    | cons c cs ih =>
      cases s with
      | nil => simp [charsStart] at hs
      | cons d ds =>
        simp only [List.cons_append, charsStart, Bool.and_eq_true] at hs ⊢
        exact ⟨hs.1, ih ds hs.2⟩

/-- Claim C6 (amended): `retrieve_path` extracts into `local_dir` joined with
`target_path`'s parent directory exactly those archive members whose path
lexically starts with `target_path`'s stripped relative string. Every member
genuinely contained within `target_path` is included, but a member whose path
is not under `target_path` is excluded only when it fails that string
comparison — prefix-named siblings are wrongly included. -/
theorem retrieve_path_filter (archive : List TarMember) (tp ld : String) :
    (retrieve_path archive tp ld).1 = pjoin ld (pyLstripSlash (dirname tp))
    ∧ (∀ m, m ∈ (retrieve_path archive tp ld).2 ↔
        m ∈ archive ∧ pyStartswith m.path (pyLstripSlash tp) = true)
    ∧ (∀ m, m ∈ archive → underRel m.path (pyLstripSlash tp) = true →
        m ∈ (retrieve_path archive tp ld).2) := by
  refine ⟨rfl, ?_, ?_⟩
  · intro m
    simp [retrieve_path, List.mem_filter]
  · intro m hm hu
    simp only [retrieve_path, List.mem_filter]
    exact ⟨hm, underRel_startswith _ _ hu⟩

/-- A member genuinely contained under `/etc`. -/
def mC6w : TarMember := ⟨"etc/passwd", TarKind.file, [56]⟩

theorem retrieve_path_filter_witness :
    mC6w ∈ (retrieve_path [mC6w] "/etc" "/o").2 :=
  (retrieve_path_filter [mC6w] "/etc" "/o").2.2 mC6w (by decide) (by decide)

/-- The Python value passed as `local_thing` to `retrieval_context`: a path
string, `None`, an object with a `write` attribute (identified by an id), or
anything else. -/
inductive LocalThing where
  | strPath (s : String)
  | pyNone
  | writable (n : Nat)
  | other
  deriving DecidableEq

/-- A write destination: a host file path, or a writable object. -/
inductive Dest where
  | path (s : String)
  | obj (n : Nat)
  deriving DecidableEq

/-- Observable outcome of one `retrieval_context` scope: the value yielded to
the body, the writes performed at exit, and whether a body exception
propagates after the `finally` block ran. -/
structure RCResult where
  yielded : Dest
  writes : List (Dest × List Nat)
  raised : Bool
  deriving DecidableEq

/-- `DockerImageTarget.retrieval_context`. `tempName` is the name the external
`tempfile.mktemp()` returns; `bodyRaises` says whether the with-body raises.
A `str` destination is opened and yielded; `None` allocates a temp file;
a `write()`-able object is used directly; anything else raises `ValueError`
before yielding. The `finally` block always writes
`retrieve_file_contents(target_path)` into the destination — also when the
body raised, in which case the body's exception then propagates (`raised`);
an exception from the retrieval itself replaces the body's. -/
def retrieval_context (archive : List TarMember) (target_path : String)
    (local_thing : LocalThing) (tempName : String) (bodyRaises : Bool) :
    Except PyErr RCResult :=
  match local_thing with
  | .other => .error .valueError
  | .strPath s =>
    match retrieve_file_contents archive target_path with
    | .error e => .error e
    | .ok c => .ok ⟨.path s, [(.path s, c)], bodyRaises⟩
  | .pyNone =>
    match retrieve_file_contents archive target_path with
    | .error e => .error e
    | .ok c => .ok ⟨.path tempName, [(.path tempName, c)], bodyRaises⟩
  | .writable n =>
    match retrieve_file_contents archive target_path with
    | .error e => .error e
    | .ok c => .ok ⟨.obj n, [(.obj n, c)], bodyRaises⟩

/-- Claim C7: whenever the file at `target_path` is retrievable, every exit of
a `retrieval_context` scope — normal or exceptional — writes the retrieved
contents into the destination, for each of the three destination kinds (path
string, `None`/temp file, writable sink), yielding respectively that path, the
temp path, and the sink itself; any other destination raises `ValueError`. -/
theorem retrieval_context_writes (archive : List TarMember) (tp tempName : String)
    (bodyRaises : Bool) (c : List Nat)
    (h : retrieve_file_contents archive tp = .ok c) :
    (∀ s, retrieval_context archive tp (.strPath s) tempName bodyRaises =
      .ok ⟨.path s, [(.path s, c)], bodyRaises⟩)
    ∧ (retrieval_context archive tp .pyNone tempName bodyRaises =
      .ok ⟨.path tempName, [(.path tempName, c)], bodyRaises⟩)
    ∧ (∀ n, retrieval_context archive tp (.writable n) tempName bodyRaises =
      .ok ⟨.obj n, [(.obj n, c)], bodyRaises⟩)
    ∧ retrieval_context archive tp .other tempName bodyRaises =
      .error PyErr.valueError := by
  refine ⟨?_, ?_, ?_, rfl⟩
  · intro s
    simp [retrieval_context, h]
  · simp [retrieval_context, h]
  · intro n
    simp [retrieval_context, h]

/-- The tarball the runtime returns for `/tmp/foo`. -/
def arC7 : List TarMember := [⟨"foo", TarKind.file, [1, 2]⟩]

theorem retrieval_context_writes_witness :
    retrieval_context arC7 "/tmp/foo" (.writable 0) "/tmp/t0" true =
      .ok ⟨.obj 0, [(.obj 0, [1, 2])], true⟩ :=
  (retrieval_context_writes arC7 "/tmp/foo" "/tmp/t0" true [1, 2] (by decide)).2.2.1 0

/-- `["-e", e]` for every `e` in `target_env`, in order (the loop building
`docker_args`). -/
def envFlags : List String → List String
  | [] => []
  | e :: rest => "-e" :: e :: envFlags rest

/-- `DockerImageTarget.run_command`, returning the full host argv handed to
`subprocess.Popen`. `assert self.container is not None` raises
`AssertionError`; using a `None` `target_args`/`target_env` as a list raises
`TypeError`. `argsPre`/`argsSuf` are the source's `args_prefix`/`args_suffix`. -/
def run_command (t : DockerImageTarget) (args argsPre argsSuf : Option (List String))
    (aslr : Bool) : Except PyErr (List String) :=
  match t.container with
  | none => .error .assertionError
  | some cid =>
    match pyOrL args t.target_args with
    | none => .error .typeError
    | some cargs0 =>
      let cargs1 := match argsPre with
        | some l => if l.isEmpty then cargs0 else l ++ cargs0
        | none => cargs0
      let cargs2 := match argsSuf with
        | some l => if l.isEmpty then cargs1 else cargs1 ++ l
        | none => cargs1
      let cargs3 := if aslr then cargs2 else ["setarch", "x86_64", "-R"] ++ cargs2
      match t.target_env with
      | none => .error .typeError
      | some env => .ok (["docker", "exec", "-i"] ++ envFlags env ++ [cid] ++ cargs3)

/-- Claim C8: with no container handle, `run_command` fails fast with the
assertion error; otherwise the effective command is
`args_prefix ++ (args or default target_args) ++ args_suffix`, wrapped with
`setarch x86_64 -R` when `aslr` is false, and every entry `e` of `target_env`
is propagated as an explicit `-e e` assignment in the `docker exec` argv. -/
theorem run_command_shape (t : DockerImageTarget)
    (args argsPre argsSuf : Option (List String)) (aslr : Bool) :
    (t.container = none →
      run_command t args argsPre argsSuf aslr = .error PyErr.assertionError)
    ∧ (∀ cid env cargs0, t.container = some cid → t.target_env = some env →
        pyOrL args t.target_args = some cargs0 →
        run_command t args argsPre argsSuf aslr =
          .ok (["docker", "exec", "-i"] ++ envFlags env ++ [cid] ++
            (if aslr then [] else ["setarch", "x86_64", "-R"]) ++
            (argsPre.getD [] ++ cargs0 ++ argsSuf.getD []))) := by
  constructor
  · intro hc
    simp [run_command, hc]
  · intro cid env cargs0 hc he ha
    simp only [run_command, hc, ha, he]
    cases argsPre with
    | none =>
      cases argsSuf with
      | none => cases aslr <;> simp
      | some ls =>
        cases ls with
        | nil => cases aslr <;> simp
        | cons x xs => cases aslr <;> simp
    | some lp =>
      cases lp with
      | nil =>
        cases argsSuf with
        | none => cases aslr <;> simp
        | some ls =>
          cases ls with
          | nil => cases aslr <;> simp
          | cons x xs => cases aslr <;> simp
      | cons y ys =>
        cases argsSuf with
        | none => cases aslr <;> simp
        | some ls =>
          cases ls with
          | nil => cases aslr <;> simp
          | cons x xs => cases aslr <;> simp

/-- A built-and-started target with container `c7`. -/
def tC8 : DockerImageTarget :=
  ⟨"archr-test", some ["/bin/x"], some ["E=1"], some "/bin/x", none, some "c7"⟩

theorem run_command_shape_witness :
    run_command tC8 (some ["id"]) (some ["P"]) (some ["S"]) false =
      .ok (["docker", "exec", "-i"] ++ envFlags ["E=1"] ++ ["c7"] ++
        (if false then [] else ["setarch", "x86_64", "-R"]) ++
        ((some ["P"]).getD [] ++ ["id"] ++ (some ["S"]).getD [])) :=
  (run_command_shape tC8 (some ["id"]) (some ["P"]) (some ["S"]) false).2
    "c7" ["E=1"] ["id"] rfl rfl rfl

/-- Observable process-handle events inside a `run_context` scope, in order. -/
inductive PEvent where
  | wait
  | terminate
  deriving DecidableEq

/-- `DockerImageTarget.run_context`: spawn via `run_command` and yield the
process; on normal body exit `p.wait()` runs, and the `finally` block calls
`p.terminate()` on every exit path; a body exception then propagates. Result:
the spawned argv, the ordered handle events, and whether the scope re-raises. -/
def run_context (t : DockerImageTarget) (args argsPre argsSuf : Option (List String))
    (aslr : Bool) (bodyRaises : Bool) :
    Except PyErr (List String × List PEvent × Bool) :=
  match run_command t args argsPre argsSuf aslr with
  | .error e => .error e
  | .ok argv =>
    if bodyRaises then .ok (argv, [PEvent.terminate], true)
    else .ok (argv, [PEvent.wait, PEvent.terminate], false)

/-- Claim C9: when the spawn succeeds, `run_context` yields the live process
(its argv), waits for it exactly on normal scope exit, and attempts
termination on every exit path — after a successful wait as well as when the
body raises. -/
theorem run_context_cleanup (t : DockerImageTarget)
    (args argsPre argsSuf : Option (List String)) (aslr : Bool)
    (bodyRaises : Bool) (argv : List String)
    (h : run_command t args argsPre argsSuf aslr = .ok argv) :
    run_context t args argsPre argsSuf aslr bodyRaises =
      .ok (argv, (if bodyRaises then [] else [PEvent.wait]) ++ [PEvent.terminate],
        bodyRaises)
    ∧ (∀ r, run_context t args argsPre argsSuf aslr bodyRaises = .ok r →
        PEvent.terminate ∈ r.2.1) := by
  constructor
  · cases bodyRaises <;> simp [run_context, h]
  · intro r hr
    rw [run_context, h] at hr
    cases bodyRaises with
    | false =>
      simp only [Bool.false_eq_true, if_false, Except.ok.injEq] at hr
      rw [← hr]
      simp
    | true =>
      simp only [if_true, Except.ok.injEq] at hr
      rw [← hr]
      simp

theorem run_context_cleanup_witness :
    run_context tC8 none none none true true =
      .ok (["docker", "exec", "-i"] ++ envFlags ["E=1"] ++ ["c7"] ++ ["/bin/x"],
        (if true then [] else [PEvent.wait]) ++ [PEvent.terminate], true) :=
  (run_context_cleanup tC8 none none none true true
    (["docker", "exec", "-i"] ++ envFlags ["E=1"] ++ ["c7"] ++ ["/bin/x"])
    (by decide)).1

/-- Claim C10: a supplied empty sequence is indistinguishable from an omitted
one — `run_command` with `args = []` falls back to the default `target_args`,
and `build` replaces `target_args = []` / `target_env = []` with the
image-derived defaults — because defaults are selected by Python truthiness
rather than an `is None` check. -/
theorem empty_equals_omitted (t : DockerImageTarget) (img : ImageConfig)
    (argsPre argsSuf : Option (List String)) (aslr : Bool) :
    run_command t (some []) argsPre argsSuf aslr =
      run_command t none argsPre argsSuf aslr
    ∧ build { t with target_args := some [] } img =
      build { t with target_args := none } img
    ∧ build { t with target_env := some [] } img =
      build { t with target_env := none } img := by
  refine ⟨?_, rfl, rfl⟩
  cases hc : t.container <;> simp [run_command, hc, pyOrL]

end Archr
